import Mathlib

/-!
Verification of the `hf-space-vercel-proxy` request dispatcher.

The repository is a Vercel serverless endpoint (`api/ask.js`) that fans a
user query out to external text-generation backends and collects the
outcomes.  The repository holds successive iterations of the same handler:

* `src/api/ask.js` — the current handler: sequential dispatch loop, gradio
  client attempt with a raw HTTP probing fallback (`callHfHttpFallback`).
* `src/unnamed/part_000` — the gradio-client iteration: coalesced
  `getClient`, `Promise.all` over per-model tasks, top-level try/catch.
* `src/unnamed/part_001` (first half) — the earliest iteration: simple
  `callHfSpace`, `callOpenAI`, placeholder `callGemini`, no GET branch.
* `src/unnamed/part_001` (second half) — the probing iteration.

The shallow embedding below models JavaScript values (`JsVal`), the JS
builtins the source relies on (truthiness, `String(...)`,
`JSON.stringify`), axios's resolve-on-2xx contract, and each handler as a
pure function from an environment (an oracle fixing the outcome of every
external interaction) and a request to a response paired with the list of
network operations performed.  Asynchrony is modelled by the oracle: a
backend call's outcome is a value of the environment, so every theorem
quantifying over environments holds for every possible completion
order/outcome of the backends.  `Promise.all` preserves the order of its
input list, which the embedding reflects by mapping over the model list.
An unforeseen runtime exception inside the dispatch section is modelled by
an explicit `fault : Option String` parameter consulted exactly where the
corresponding source code would raise: `api/ask.js` has no top-level
catch, while `part_000` wraps its `Promise.all` in try/catch.
-/

/-- A JavaScript value, as far as the handler observes them: `undefined`,
`null`, booleans, (integer) numbers, strings, arrays and plain objects. -/
inductive JsVal where
  | und : JsVal
  | nul : JsVal
  | bool : Bool → JsVal
  | num : Int → JsVal
  | str : String → JsVal
  | arr : List JsVal → JsVal
  | obj : List (String × JsVal) → JsVal

/-- JavaScript truthiness: `undefined`, `null`, `false`, `0` and `""` are
falsy; every object and array is truthy. -/
def JsVal.truthy : JsVal → Bool
  | .und => false
  | .nul => false
  | .bool b => b
  | .num n => n != 0
  | .str s => s != ""
  | .arr _ => true
  | .obj _ => true

/-- `typeof v === 'string'`. -/
def JsVal.isStr : JsVal → Bool
  | .str _ => true
  | _ => false

/-- The string carried by a string value (callers only use it on strings). -/
def JsVal.asString : JsVal → String
  | .str s => s
  | _ => ""

/-- `v !== undefined`: the field is present on the object. -/
def JsVal.isPresent : JsVal → Bool
  | .und => false
  | _ => true

/-- First-match lookup in an object's field list (the modelled objects have
no duplicate keys). -/
def lookupField : List (String × JsVal) → String → JsVal
  | [], _ => .und
  | (k, v) :: fs, key => if k = key then v else lookupField fs key

/-- Property access `v.key`, yielding `undefined` on non-objects, which also
models the optional-chaining reads in the source. -/
def JsVal.getField : JsVal → String → JsVal
  | .obj fs, key => lookupField fs key
  | _, _ => .und

/-- `v[0]` on an array value; `undefined` otherwise. -/
def JsVal.arrFirst : JsVal → JsVal
  | .arr (x :: _) => x
  | _ => .und

/-- `Array.isArray(v) && v.length` — a non-empty array. -/
def JsVal.isNonemptyArr : JsVal → Bool
  | .arr (_ :: _) => true
  | _ => false

/-- Characters of a string under JSON escaping (quote, backslash, newline). -/
def jsonEscapeChars : List Char → List Char
  | [] => []
  | c :: cs =>
    (if c = '"' then ['\\', '"']
     else if c = '\\' then ['\\', '\\']
     else if c = '\n' then ['\\', 'n']
     else [c]) ++ jsonEscapeChars cs

/-- JSON string escaping, as performed by `JSON.stringify` on strings. -/
def jsonEscape (s : String) : String :=
  String.mk (jsonEscapeChars s.data)

/-- Comma-join, as used when serializing arrays and objects. -/
def joinComma : List String → String
  | [] => ""
  | [s] => s
  | s :: rest => s ++ "," ++ joinComma rest

mutual

/-- `JSON.stringify` on a defined value (`undefined` array elements render
as `null`; `undefined` object fields are dropped). -/
def jstr : JsVal → String
  | .und => "null"
  | .nul => "null"
  | .bool b => cond b "true" "false"
  | .num n => toString n
  | .str s => "\"" ++ jsonEscape s ++ "\""
  | .arr xs => "[" ++ joinComma (jstrList xs) ++ "]"
  | .obj fs => "\x7b" ++ joinComma (jstrFields fs) ++ "\x7d"

/-- Serialized array elements. -/
def jstrList : List JsVal → List String
  | [] => []
  | x :: xs => jstr x :: jstrList xs

/-- Serialized object fields; `undefined`-valued fields are skipped. -/
def jstrFields : List (String × JsVal) → List String
  | [] => []
  | (_, .und) :: fs => jstrFields fs
  | (k, v) :: fs => ("\"" ++ jsonEscape k ++ "\":" ++ jstr v) :: jstrFields fs

end

/-- `JSON.stringify` as a value: stringifying `undefined` yields
`undefined`, anything else yields the serialized string. -/
def stringifyVal : JsVal → JsVal
  | .und => .und
  | v => .str (jstr v)

mutual

/-- JavaScript string conversion `String(v)`. -/
def jsToString : JsVal → String
  | .und => "undefined"
  | .nul => "null"
  | .bool b => cond b "true" "false"
  | .num n => toString n
  | .str s => s
  | .arr xs => joinComma (jsElems xs)
  | .obj _ => "[object Object]"

/-- Array elements under `String(...)`: `undefined` and `null` render empty. -/
def jsElems : List JsVal → List String
  | [] => []
  | .und :: xs => "" :: jsElems xs
  | .nul :: xs => "" :: jsElems xs
  | x :: xs => jsToString x :: jsElems xs

end

/-- Outcome of one raw HTTP exchange: the server replied with a status and
a parsed JSON body, or the request failed without any response. -/
inductive HttpWire where
  | reply : Nat → JsVal → HttpWire
  | down : String → HttpWire

/-- What an `axios.post` call produces for its caller: a resolution (2xx),
a rejection carrying `err.response` (non-2xx), or a rejection without a
response (network error / timeout). -/
inductive PostResult where
  | ok : Nat → JsVal → PostResult
  | errResp : Nat → JsVal → String → PostResult
  | errNoResp : String → PostResult

/-- axios's documented default contract (`validateStatus`): the promise
resolves exactly on 2xx; a non-2xx reply rejects with `err.response` set
and the standard message; a transport failure rejects without a response. -/
def axiosPost (wire : String → JsVal → HttpWire) (url : String)
    (payload : JsVal) : PostResult :=
  match wire url payload with
  | .down msg => .errNoResp msg
  | .reply status data =>
    if 200 ≤ status ∧ status < 300 then .ok status data
    else .errResp status data ("Request failed with status code " ++ toString status)

/-- A network operation performed by the handler: a gradio client
interaction (dynamic import, connect, predict) or a raw HTTP POST. -/
inductive NetOp where
  | gradio : NetOp
  | post : String → JsVal → NetOp

/-- One entry of the probing fallback's attempt log. -/
structure Attempt where
  ok : Bool
  url : String
  status : Option Nat
  error : Option JsVal

/-- The `debug.http_attempts` value of `api/ask.js`: either the fallback's
attempt array or the stringified error. -/
inductive AttLog where
  | atts : List Attempt → AttLog
  | msg : String → AttLog

/-- The `debug` object pushed by the hf branch of `api/ask.js`. -/
structure HfDebug where
  client_error : Option String
  http_attempts : Option AttLog

/-- One `BackendResult` record, as pushed by `api/ask.js` and `part_000`. -/
structure BackendResult where
  model : String
  ok : Bool
  text : Option JsVal
  error : Option String
  debug : Option HfDebug

/-- A task result of the earliest iteration (`part_001`, first half), whose
success payload lives under the `result` key. -/
structure TaskResult where
  model : String
  ok : Bool
  result : Option JsVal
  error : Option String

/-- A normalized entry of the earliest iteration's response (`ok` is
dropped; either `text` or `error` is set). -/
structure NormResult where
  model : String
  text : Option String
  error : Option String

/-- A response body, as serialized by the handlers. -/
inductive ResBody where
  | err : String → ResBody
  | errDetail : String → String → ResBody
  | health : String → String → ResBody
  | envelope : String → List BackendResult → String → ResBody
  | envelopeN : String → List NormResult → String → ResBody

/-- An HTTP response: status code and JSON body. -/
structure Response where
  status : Nat
  body : ResBody

/-- The inbound JSON body, with the fields the handlers read.  An absent
field is `undefined`.  `models` is `some xs` when the field is an array of
strings and `none` when it is absent or not an array. -/
structure Body where
  query : JsVal := .und
  prompt : JsVal := .und
  message : JsVal := .und
  models : Option (List String) := none

/-- `req.body || {}` for a request without a parsed body. -/
def emptyBody : Body := {}

/-- The inbound HTTP request, as far as the handlers inspect it. -/
structure Req where
  method : String
  body : Option Body

/-- `Array.isArray(body.models) && body.models.length ? body.models : ['hf']`. -/
def resolveModels : Option (List String) → List String
  | some (m :: ms) => m :: ms
  | _ => ["hf"]

/-- `body.query || body.prompt || (body.message ? body.message : null)` —
the query resolution shared by `api/ask.js` and `part_000`: the first
truthy field wins; if all three are falsy the result is `null`. -/
def resolveQuery (b : Body) : JsVal :=
  if b.query.truthy then b.query
  else if b.prompt.truthy then b.prompt
  else if b.message.truthy then b.message
  else .nul

/-- Modelled from the spec: the spec's resolution rule reads the query from
the first *present* field among `query`, `prompt`, `message`, in that
priority order (spec section 3, "first present, in that priority order").
Kept for comparison with the code's truthiness-based `resolveQuery`. -/
def specResolveQuery (b : Body) : Option JsVal :=
  if b.query.isPresent then some b.query
  else if b.prompt.isPresent then some b.prompt
  else if b.message.isPresent then some b.message
  else none

/-- `url.replace(/\/+$/, '')` — strip all trailing slashes. -/
def safeBase (url : String) : String :=
  String.mk ((url.data.reverse.dropWhile (fun c => c = '/')).reverse)

/-- `url.replace(/\/$/, '')` — strip one trailing slash. -/
def dropOneSlash (s : String) : String :=
  if s.data.getLast? = some '/' then String.mk s.data.dropLast else s

/-- `true` exactly on an `Except.ok`. -/
def exOk {ε α : Type} : Except ε α → Bool
  | .ok _ => true
  | .error _ => false

/-- The fixed OpenAI Chat Completions URL used by every iteration. -/
def openaiUrl : String := "https://api.openai.com/v1/chat/completions"

/-- The Chat Completions request body:
`(model, messages:[(role:user, content:query)], max_tokens:512)`. -/
def openaiReqBody (modelName q : String) : JsVal :=
  .obj [("model", .str modelName),
        ("messages", .arr [.obj [("role", .str "user"), ("content", .str q)]]),
        ("max_tokens", .num 512)]

/-- `process.env.OPENAI_MODEL || 'gpt-4o-mini'`. -/
def openaiModelName (configured : String) : String :=
  if configured = "" then "gpt-4o-mini" else configured

/-- `r.data?.choices?.[0]?.message?.content ?? JSON.stringify(r.data)` —
the Chat Completions extraction shared by every iteration. -/
def extractOpenAI (d : JsVal) : JsVal :=
  match ((d.getField "choices").arrFirst.getField "message").getField "content" with
  | .und => stringifyVal d
  | .nul => stringifyVal d
  | c => c

namespace Ask

/-! The current handler, `src/api/ask.js`. -/

/-- The environment of `api/ask.js`: its configuration constants plus an
oracle fixing the outcome of every external interaction.  `gradio q` is
the combined outcome of `tryGetGradioClient()` followed by
`client.predict('/chat', (message: q))` (both awaited inside one `try`,
with timeouts and the single connect retry folded into the outcome);
`wire` is the raw HTTP world seen by axios. -/
structure Env where
  HF_SPACE_URL : String := ""
  HF_TOKEN : String := ""
  OPENAI_API_KEY : String := ""
  OPENAI_MODEL : String := ""
  wire : String → JsVal → HttpWire
  gradio : String → Except String JsVal

/-- The error thrown by `callHfHttpFallback`: a message, plus the
`e.attempts` array on total exhaustion. -/
structure FallbackErr where
  message : String
  attempts : Option (List Attempt)

/-- The candidate endpoints `base + '/run/predict' | '/api/predict' | '/predict'`. -/
def hfEndpoints (base : String) : List String :=
  [base ++ "/run/predict", base ++ "/api/predict", base ++ "/predict"]

/-- The candidate payload shapes, in source order. -/
def hfPayloads (q : String) : List JsVal :=
  [.obj [("data", .arr [.str q])],
   .obj [("data", .arr [.str q]), ("fn_index", .num 0)],
   .obj [("input", .str q)],
   .obj [("inputs", .str q)],
   .obj [("message", .str q)],
   .obj [("text", .str q)]]

/-- The nested `for url / for payload` loops visit the cross-product in
this order. -/
def hfCombos (base q : String) : List (String × JsVal) :=
  (hfEndpoints base).flatMap (fun u => (hfPayloads q).map (fun p => (u, p)))

/-- The success extraction of `callHfHttpFallback` (lines 81-84):
non-empty `d.data` array, then string `d.data`, then plain string body,
then `JSON.stringify` fallback. -/
def normalizeHttp (d : JsVal) : JsVal :=
  if d.truthy && (d.getField "data").isNonemptyArr then
    .str (jsToString (d.getField "data").arrFirst)
  else if d.truthy && (d.getField "data").isStr then d.getField "data"
  else if d.isStr then d
  else stringifyVal d

/-- The attempt-log entry produced for one (url, payload) combination. -/
def attemptOf (post : String → JsVal → PostResult) (c : String × JsVal) : Attempt :=
  match post c.1 c.2 with
  | .ok s _ => ⟨true, c.1, some s, none⟩
  | .errResp s d _ => ⟨false, c.1, some s, some d⟩
  | .errNoResp m => ⟨false, c.1, none, some (.str m)⟩

/-- Whether the post for one combination resolves (axios: replies 2xx). -/
def postOk (post : String → JsVal → PostResult) (c : String × JsVal) : Bool :=
  match post c.1 c.2 with
  | .ok _ _ => true
  | _ => false

/-- The 2xx body for one combination (`undefined` when it did not resolve). -/
def postData (post : String → JsVal → PostResult) (c : String × JsVal) : JsVal :=
  match post c.1 c.2 with
  | .ok _ d => d
  | _ => .und

/-- The probing loop of `callHfHttpFallback`: try each combination in
order, pushing one attempt entry per try; return the normalized text and
the attempt log on the first resolution, or throw `no_http_hf_endpoint`
with the full attempt log when every combination failed.  Also returns the
POSTs performed. -/
def probeGo (post : String → JsVal → PostResult) (acc : List Attempt) :
    List (String × JsVal) → Except FallbackErr (JsVal × List Attempt) × List NetOp
  | [] => (.error ⟨"no_http_hf_endpoint", some acc⟩, [])
  | (u, p) :: rest =>
    match post u p with
    | .ok s d => (.ok (normalizeHttp d, acc ++ [⟨true, u, some s, none⟩]), [.post u p])
    | .errResp s d _ =>
      let r := probeGo post (acc ++ [⟨false, u, some s, some d⟩]) rest
      (r.1, .post u p :: r.2)
    | .errNoResp m =>
      let r := probeGo post (acc ++ [⟨false, u, none, some (.str m)⟩]) rest
      (r.1, .post u p :: r.2)

/-- `callHfHttpFallback(query)` (lines 54-94): requires `HF_SPACE_URL`,
then probes the endpoint/payload cross-product. -/
def callHfHttpFallback (env : Env) (q : String) :
    Except FallbackErr (JsVal × List Attempt) × List NetOp :=
  if env.HF_SPACE_URL = "" then
    (.error ⟨"HF_SPACE_URL not configured for HTTP fallback", none⟩, [])
  else
    probeGo (axiosPost env.wire) []
      (hfCombos (safeBase env.HF_SPACE_URL) q)

/-- The gradio-client reply normalization (lines 134-139). -/
def normalizeClient (resp : JsVal) : JsVal :=
  if resp.isStr then resp
  else if resp.truthy && (resp.getField "data").truthy then
    (if (resp.getField "data").isNonemptyArr then
      .str (jsToString (resp.getField "data").arrFirst)
     else if (resp.getField "data").isStr then resp.getField "data"
     else stringifyVal (resp.getField "data"))
  else stringifyVal resp

/-- `String(err)` on an `Error` object. -/
def errToString (msg : String) : String := "Error: " ++ msg

/-- `errHttp.attempts || errHttp.summary || String(errHttp)` — the ask.js
errors carry no `summary`, so: the attempt array when present, otherwise
the stringified error. -/
def httpAttemptsLog (fe : FallbackErr) : AttLog :=
  match fe.attempts with
  | some l => .atts l
  | none => .msg (errToString fe.message)

/-- The `model === 'hf'` branch (lines 123-162): gradio client first, HTTP
fallback second, double failure pushed as `ok:false` with debug info. -/
def hfCall (env : Env) (q : String) : BackendResult × List NetOp :=
  match env.gradio q with
  | .ok resp =>
    (⟨"hf", true, some (normalizeClient resp), none, some ⟨none, none⟩⟩, [.gradio])
  | .error e =>
    match callHfHttpFallback env q with
    | (.ok (t, atts), ops) =>
      (⟨"hf", true, some t, none, some ⟨some e, some (.atts atts)⟩⟩, .gradio :: ops)
    | (.error fe, ops) =>
      (⟨"hf", false, none, some "HF calls failed",
        some ⟨some e, some (httpAttemptsLog fe)⟩⟩, .gradio :: ops)

/-- `JSON.stringify(resp.data)` for the openai catch branch, as an
`Option String` (it is a string for every defined body). -/
def stringifyOpt (d : JsVal) : Option String :=
  match stringifyVal d with
  | .str s => some s
  | _ => none

/-- The `model === 'openai'` branch (lines 165-183). -/
def openaiCall (env : Env) (q : String) : BackendResult × List NetOp :=
  if env.OPENAI_API_KEY = "" then
    (⟨"openai", false, none, some "OPENAI_API_KEY not configured", none⟩, [])
  else
    let body := openaiReqBody (openaiModelName env.OPENAI_MODEL) q
    match axiosPost env.wire openaiUrl body with
    | .ok _ d => (⟨"openai", true, some (extractOpenAI d), none, none⟩, [.post openaiUrl body])
    | .errResp _ d _ => (⟨"openai", false, none, stringifyOpt d, none⟩, [.post openaiUrl body])
    | .errNoResp m => (⟨"openai", false, none, some m, none⟩, [.post openaiUrl body])

/-- One iteration of the dispatch loop (lines 122-187): the hf branch, the
openai branch, or the immediate unknown-model result. -/
def perModel (env : Env) (q : String) (m : String) : BackendResult × List NetOp :=
  if m = "hf" then hfCall env q
  else if m = "openai" then openaiCall env q
  else (⟨m, false, none, some "unknown model", none⟩, [])

/-- The dispatch loop: one pushed result per entry of `models`, in order. -/
def runModels (env : Env) (q : String) : List String → List BackendResult × List NetOp
  | [] => ([], [])
  | m :: rest =>
    let r := perModel env q m
    let rs := runModels env q rest
    (r.1 :: rs.1, r.2 ++ rs.2)

/-- The exported handler of `api/ask.js` (lines 97-191).  `now` is the
`new Date().toISOString()` value; `fault` injects an unforeseen exception
at the dispatch section, which this handler does not catch (there is no
top-level try/catch), so it escapes as `Except.error`. -/
def handler (env : Env) (now : String) (fault : Option String) (req : Req) :
    Except String Response × List NetOp :=
  if req.method = "GET" then
    (.ok ⟨200, .health "ok" "POST JSON \x7bquery:\"...\"\x7d"⟩, [])
  else if req.method ≠ "POST" then
    (.ok ⟨405, .err "Method not allowed, use POST"⟩, [])
  else
    let b := req.body.getD emptyBody
    let q := resolveQuery b
    if ¬ (q.truthy && q.isStr) then
      (.ok ⟨400, .err "Body must be JSON with a \"query\" string"⟩, [])
    else
      match fault with
      | some e => (.error e, [])
      | none =>
        let r := runModels env q.asString (resolveModels b.models)
        (.ok ⟨200, .envelope q.asString r.1 now⟩, r.2)

end Ask

namespace Chat

/-! The gradio-client iteration, `src/unnamed/part_000`. -/

/-- The module-level connection state (lines 11-12): the cached client, the
in-flight connection promise, plus an instrumentation counter of started
connection establishments (the "call counter on the connection
primitive").  Clients and promises are identified by numbers; a started
attempt is identified by the value of the counter at its start. -/
structure St where
  gradioClient : Option Nat
  connecting : Option Nat
  attempts : Nat

/-- What one `getClient()` call hands its caller: the cached client, the
shared in-flight promise, or a freshly started connection promise. -/
inductive GetOutcome where
  | cached : Nat → GetOutcome
  | pending : Nat → GetOutcome
  | started : Nat → GetOutcome

/-- `getClient()` (lines 14-40).  The body up to the assignment of
`connecting` contains no `await`, so on the single-threaded event loop the
check-and-assign is one atomic step, which this transition models. -/
def getClient (s : St) : St × GetOutcome :=
  match s.gradioClient with
  | some c => (s, .cached c)
  | none =>
    match s.connecting with
    | some p => (s, .pending p)
    | none =>
      ({ s with connecting := some s.attempts, attempts := s.attempts + 1 },
       .started s.attempts)

/-- The in-flight connection resolves with a client (lines 29-32):
the client is cached and `connecting` is cleared. -/
def settleOk (s : St) (c : Nat) : St :=
  { s with gradioClient := some c, connecting := none }

/-- The in-flight connection rejects (lines 33-36): `connecting` is
cleared (and the error propagates to the joined callers). -/
def settleErr (s : St) : St :=
  { s with connecting := none }

/-- `n` callers invoking `getClient()` with no settlement in between
(simultaneous arrivals). -/
def burst : Nat → St → St × List GetOutcome
  | 0, s => (s, [])
  | n + 1, s =>
    let r := getClient s
    let rest := burst n r.1
    (rest.1, r.2 :: rest.2)

/-- The environment of `part_000`: configuration plus the oracle.
`gradioResp q` is the combined outcome of `getClient()` followed by
`client.predict('/chat', (message: q))`. -/
structure Env where
  OPENAI_API_KEY : String := ""
  OPENAI_MODEL : String := ""
  wire : String → JsVal → HttpWire
  gradioResp : String → Except String JsVal

/-- The reply normalization of `callHfChat` (lines 47-54): `null` and
`undefined` become `''`; strings pass through; a truthy `data` field is
preferred (first array element, then string); otherwise the whole reply is
JSON-stringified. -/
def normalizeChat (res : JsVal) : JsVal :=
  match res with
  | .und => .str ""
  | .nul => .str ""
  | r =>
    if r.isStr then r
    else if r.truthy && (r.getField "data").truthy && (r.getField "data").isNonemptyArr then
      .str (jsToString (r.getField "data").arrFirst)
    else if r.truthy && (r.getField "data").truthy && (r.getField "data").isStr then
      r.getField "data"
    else .str (jstr r)

/-- `callHfChat(message)` (lines 42-55). -/
def callHfChat (env : Env) (q : String) : Except String JsVal × List NetOp :=
  match env.gradioResp q with
  | .ok r => (.ok (normalizeChat r), [.gradio])
  | .error e => (.error e, [.gradio])

/-- `callOpenAI(query)` (lines 57-70): throws a configuration error before
any network use when the key is absent. -/
def callOpenAI (env : Env) (q : String) : Except String JsVal × List NetOp :=
  if env.OPENAI_API_KEY = "" then (.error "OPENAI_API_KEY not configured", [])
  else
    let body := openaiReqBody (openaiModelName env.OPENAI_MODEL) q
    match axiosPost env.wire openaiUrl body with
    | .ok _ d => (.ok (extractOpenAI d), [.post openaiUrl body])
    | .errResp _ _ m => (.error m, [.post openaiUrl body])
    | .errNoResp m => (.error m, [.post openaiUrl body])

/-- One task of the `models.map` (lines 84-96): each backend call catches
its own error and yields an `ok:false` record; unrecognized identifiers
resolve immediately. -/
def taskOf (env : Env) (q : String) (m : String) : BackendResult × List NetOp :=
  if m = "hf" then
    match callHfChat env q with
    | (.ok t, ops) => (⟨"hf", true, some t, none, none⟩, ops)
    | (.error e, ops) => (⟨"hf", false, none, some e, none⟩, ops)
  else if m = "openai" then
    match callOpenAI env q with
    | (.ok t, ops) => (⟨"openai", true, some t, none, none⟩, ops)
    | (.error e, ops) => (⟨"openai", false, none, some e, none⟩, ops)
  else (⟨m, false, none, some "unknown model", none⟩, [])

/-- `Promise.all(tasks)`: the settled results in the order of `models`. -/
def runTasks (env : Env) (q : String) : List String → List BackendResult × List NetOp
  | [] => ([], [])
  | m :: rest =>
    let r := taskOf env q m
    let rs := runTasks env q rest
    (r.1 :: rs.1, r.2 ++ rs.2)

/-- The exported handler of `part_000` (lines 72-104).  The tasks start
when created, before the `await`; the `try/catch` around `Promise.all`
turns an unforeseen exception (`fault`) into a 500 response. -/
def handler (env : Env) (now : String) (fault : Option String) (req : Req) :
    Except String Response × List NetOp :=
  if req.method = "GET" then
    (.ok ⟨200, .health "ok"
      "POST /api/ask with JSON \x7bquery: \"...\", models: [\"hf\"] \x7d"⟩, [])
  else if req.method ≠ "POST" then
    (.ok ⟨405, .err "Method not allowed, use POST"⟩, [])
  else
    let b := req.body.getD emptyBody
    let q := resolveQuery b
    if ¬ (q.truthy && q.isStr) then
      (.ok ⟨400, .err "Body must be JSON with a \"query\" string"⟩, [])
    else
      let r := runTasks env q.asString (resolveModels b.models)
      match fault with
      | some e => (.ok ⟨500, .err e⟩, r.2)
      | none => (.ok ⟨200, .envelope q.asString r.1 now⟩, r.2)

end Chat

namespace Gem

/-! The earliest iteration, `src/unnamed/part_001` lines 1-131: simple
hf call, openai call, placeholder gemini call, and no GET branch. -/

/-- The environment of the earliest iteration. -/
structure Env where
  HF_SPACE_URL : String := ""
  HF_TOKEN : String := ""
  OPENAI_API_KEY : String := ""
  OPENAI_MODEL : String := ""
  GOOGLE_API_ENDPOINT : String := ""
  wire : String → JsVal → HttpWire

/-- `callHfSpace(query)` (lines 27-42): one POST of `(data: [query])` to
`base + '/run/predict'`; a non-empty `data.data` array yields its first
element, otherwise the raw body is returned. -/
def callHfSpace (env : Env) (q : String) : Except String JsVal × List NetOp :=
  if env.HF_SPACE_URL = "" then (.error "HF_SPACE_URL not configured", [])
  else
    let url := dropOneSlash env.HF_SPACE_URL ++ "/run/predict"
    let payload : JsVal := .obj [("data", .arr [.str q])]
    match axiosPost env.wire url payload with
    | .ok _ d =>
      (.ok (if d.truthy && (d.getField "data").isNonemptyArr then
              (d.getField "data").arrFirst
            else d), [.post url payload])
    | .errResp _ _ m => (.error m, [.post url payload])
    | .errNoResp m => (.error m, [.post url payload])

/-- `callOpenAI(query)` (lines 44-63). -/
def callOpenAI (env : Env) (q : String) : Except String JsVal × List NetOp :=
  if env.OPENAI_API_KEY = "" then (.error "OPENAI_API_KEY not configured", [])
  else
    let body := openaiReqBody (openaiModelName env.OPENAI_MODEL) q
    match axiosPost env.wire openaiUrl body with
    | .ok _ d => (.ok (extractOpenAI d), [.post openaiUrl body])
    | .errResp _ _ m => (.error m, [.post openaiUrl body])
    | .errNoResp m => (.error m, [.post openaiUrl body])

/-- `callGemini(query)` (lines 65-72): requires `GOOGLE_API_ENDPOINT`;
otherwise posts `(input: query)` there and returns `r.data` verbatim. -/
def callGemini (env : Env) (q : String) : Except String JsVal × List NetOp :=
  if env.GOOGLE_API_ENDPOINT = "" then
    (.error "GOOGLE_API_ENDPOINT not configured for Gemini", [])
  else
    let payload : JsVal := .obj [("input", .str q)]
    match axiosPost env.wire env.GOOGLE_API_ENDPOINT payload with
    | .ok _ d => (.ok d, [.post env.GOOGLE_API_ENDPOINT payload])
    | .errResp _ _ m => (.error m, [.post env.GOOGLE_API_ENDPOINT payload])
    | .errNoResp m => (.error m, [.post env.GOOGLE_API_ENDPOINT payload])

/-- One task of the `selected.map` (lines 87-104). -/
def taskOf (env : Env) (q : String) (m : String) : TaskResult × List NetOp :=
  if m = "hf" then
    match callHfSpace env q with
    | (.ok v, ops) => (⟨"hf", true, some v, none⟩, ops)
    | (.error e, ops) => (⟨"hf", false, none, some e⟩, ops)
  else if m = "openai" then
    match callOpenAI env q with
    | (.ok v, ops) => (⟨"openai", true, some v, none⟩, ops)
    | (.error e, ops) => (⟨"openai", false, none, some e⟩, ops)
  else if m = "gemini" then
    match callGemini env q with
    | (.ok v, ops) => (⟨"gemini", true, some v, none⟩, ops)
    | (.error e, ops) => (⟨"gemini", false, none, some e⟩, ops)
  else (⟨m, false, none, some "unknown model"⟩, [])

/-- `Promise.all(tasks)` in `models` order. -/
def runTasks (env : Env) (q : String) : List String → List TaskResult × List NetOp
  | [] => ([], [])
  | m :: rest =>
    let r := taskOf env q m
    let rs := runTasks env q rest
    (r.1 :: rs.1, r.2 ++ rs.2)

/-- The final normalization (lines 116-128): an `ok` result becomes
`(model, text)` with the payload stringified unless already a string; a
failed result becomes `(model, error)` and drops `ok`. -/
def normalizeR (r : TaskResult) : NormResult :=
  if r.ok then
    ⟨r.model,
     (match r.result.getD .und with
      | .str s => some s
      | v => match stringifyVal v with
             | .str s => some s
             | _ => none),
     none⟩
  else ⟨r.model, none, r.error⟩

/-- The exported handler (lines 74-131).  There is no GET branch: every
non-POST method, GET included, gets the 405 response. -/
def handler (env : Env) (now : String) (req : Req) :
    Except String Response × List NetOp :=
  if req.method ≠ "POST" then
    (.ok ⟨405, .err "Method not allowed, use POST"⟩, [])
  else
    let b := req.body.getD emptyBody
    let q := b.query
    if ¬ (q.truthy && q.isStr) then
      (.ok ⟨400, .err "Body must be JSON with a \"query\" string"⟩, [])
    else
      let r := runTasks env q.asString (resolveModels b.models)
      (.ok ⟨200, .envelopeN q.asString (r.1.map normalizeR) now⟩, r.2)

end Gem

/-- Modelled from the spec: the extraction chain exactly as the probing
claim words it — "first array element of `data`, then a string `data`
field, then JSON-stringify fallback" — with no case for a plain string
body.  Kept for comparison with the code's `Ask.normalizeHttp`. -/
def specNormalizeHttp (d : JsVal) : JsVal :=
  if (d.getField "data").isNonemptyArr then
    .str (jsToString (d.getField "data").arrFirst)
  else if (d.getField "data").isStr then d.getField "data"
  else stringifyVal d

/-! Concrete fixtures used by witnesses and counterexamples. -/

/-- An environment whose backends all fail: no gradio client, network
down, nothing configured. -/
def cAskEnv : Ask.Env :=
  { wire := fun _ _ => .down "net", gradio := fun _ => .error "no client" }

/-- The probing fallback configured with a base URL but an unreachable
network. -/
def cAskEnvProbeFail : Ask.Env :=
  { HF_SPACE_URL := "http://x",
    wire := fun _ _ => .down "net", gradio := fun _ => .error "no client" }

/-- The probing fallback configured with a server whose every reply is a
2xx carrying the plain JSON string body `"hi"`. -/
def cAskEnvProbeOk : Ask.Env :=
  { HF_SPACE_URL := "http://x",
    wire := fun _ _ => .reply 200 (.str "hi"), gradio := fun _ => .error "no client" }

/-- A `part_000` environment whose backends all fail. -/
def cChatEnv : Chat.Env :=
  { wire := fun _ _ => .down "net", gradioResp := fun _ => .error "down" }

/-- An earliest-iteration environment with nothing configured. -/
def cGemEnv : Gem.Env := { wire := fun _ _ => .down "net" }

/-- An earliest-iteration environment with a configured Gemini endpoint
that answers 200 with a JSON object. -/
def cGemEnvOk : Gem.Env :=
  { GOOGLE_API_ENDPOINT := "http://g",
    wire := fun _ _ => .reply 200 (.obj [("answer", .str "yo")]) }

/-- The `hf` result produced by `cAskEnv`: client failed, fallback not
configured. -/
def cHfFailResult : BackendResult :=
  ⟨"hf", false, none, some "HF calls failed",
   some ⟨some "no client",
         some (.msg "Error: HF_SPACE_URL not configured for HTTP fallback")⟩⟩

/-- A valid body requesting two models, the second unrecognized. -/
def cBody1 : Body := { query := .str "hi", models := some ["hf", "zz"] }

/-- A valid body requesting an unrecognized model before a recognized one. -/
def cBody2 : Body := { query := .str "ok", models := some ["zz", "openai"] }

/-- A body whose `query` is the falsy non-string `0` while `prompt` holds a
string. -/
def cBody4 : Body := { query := .num 0, prompt := .str "hello" }

/-- A body whose `query` is a truthy non-string (an array) while `prompt`
holds a string. -/
def cBody4b : Body := { query := .arr [], prompt := .str "hello" }

/-- A minimal valid body. -/
def cBody8 : Body := { query := .str "hi" }

/-- A body with an empty-string `query` and a non-empty `prompt`. -/
def cBody10 : Body := { query := .str "", prompt := .str "hello" }

/-- A body whose only provided field is the empty-string `query`. -/
def cBody10w : Body := { query := .str "" }

/-! Helper lemmas about query resolution and the handlers' POST path. -/

theorem resolveQuery_str_ne {b : Body} {q : String}
    (hq : resolveQuery b = .str q) : q ≠ "" := by
  unfold resolveQuery at hq
  split_ifs at hq with h1 h2 h3
  · rw [hq] at h1; simpa [JsVal.truthy] using h1
  · rw [hq] at h2; simpa [JsVal.truthy] using h2
  · rw [hq] at h3; simpa [JsVal.truthy] using h3

theorem resolveQuery_cond_true {b : Body} {q : String}
    (hq : resolveQuery b = .str q) :
    ((resolveQuery b).truthy && (resolveQuery b).isStr) = true := by
  have hne := resolveQuery_str_ne hq
  rw [hq]
  simp [JsVal.truthy, JsVal.isStr, hne]

theorem ask_handler_post (env : Ask.Env) (now : String) (fault : Option String)
    (b : Body) :
    Ask.handler env now fault ⟨"POST", some b⟩ =
      (if ¬ ((resolveQuery b).truthy && (resolveQuery b).isStr) then
        (.ok ⟨400, .err "Body must be JSON with a \"query\" string"⟩, [])
      else
        match fault with
        | some e => (.error e, [])
        | none =>
          let r := Ask.runModels env (resolveQuery b).asString (resolveModels b.models)
          (.ok ⟨200, .envelope (resolveQuery b).asString r.1 now⟩, r.2)) := rfl

theorem chat_handler_post (env : Chat.Env) (now : String) (fault : Option String)
    (b : Body) :
    Chat.handler env now fault ⟨"POST", some b⟩ =
      (if ¬ ((resolveQuery b).truthy && (resolveQuery b).isStr) then
        (.ok ⟨400, .err "Body must be JSON with a \"query\" string"⟩, [])
      else
        let r := Chat.runTasks env (resolveQuery b).asString (resolveModels b.models)
        match fault with
        | some e => (.ok ⟨500, .err e⟩, r.2)
        | none => (.ok ⟨200, .envelope (resolveQuery b).asString r.1 now⟩, r.2)) := rfl

theorem Ask.runModels_eq (env : Ask.Env) (q : String) (ms : List String) :
    Ask.runModels env q ms =
      (ms.map (fun m => (Ask.perModel env q m).1),
       ms.flatMap (fun m => (Ask.perModel env q m).2)) := by
  induction ms with
  | nil => rfl
  | cons m rest ih => simp [Ask.runModels, ih]

theorem Chat.runTasks_eq (env : Chat.Env) (q : String) (ms : List String) :
    Chat.runTasks env q ms =
      (ms.map (fun m => (Chat.taskOf env q m).1),
       ms.flatMap (fun m => (Chat.taskOf env q m).2)) := by
  induction ms with
  | nil => rfl
  | cons m rest ih => simp [Chat.runTasks, ih]

theorem ask_handler_valid (env : Ask.Env) (now : String) {b : Body} {q : String}
    (hq : resolveQuery b = .str q) :
    Ask.handler env now none ⟨"POST", some b⟩ =
      (.ok ⟨200, .envelope q
        ((resolveModels b.models).map (fun m => (Ask.perModel env q m).1)) now⟩,
       (resolveModels b.models).flatMap (fun m => (Ask.perModel env q m).2)) := by
  rw [ask_handler_post, if_neg (by simp [resolveQuery_cond_true hq])]
  simp only [hq, JsVal.asString, Ask.runModels_eq]

theorem chat_handler_valid (env : Chat.Env) (now : String) {b : Body} {q : String}
    (hq : resolveQuery b = .str q) :
    Chat.handler env now none ⟨"POST", some b⟩ =
      (.ok ⟨200, .envelope q
        ((resolveModels b.models).map (fun m => (Chat.taskOf env q m).1)) now⟩,
       (resolveModels b.models).flatMap (fun m => (Chat.taskOf env q m).2)) := by
  rw [chat_handler_post, if_neg (by simp [resolveQuery_cond_true hq])]
  simp only [hq, JsVal.asString, Chat.runTasks_eq]

theorem Ask.hfCall_model (env : Ask.Env) (q : String) :
    (Ask.hfCall env q).1.model = "hf" := by
  unfold Ask.hfCall
  split
  · rfl
  · split <;> rfl

theorem Ask.openaiCall_model (env : Ask.Env) (q : String) :
    (Ask.openaiCall env q).1.model = "openai" := by
  unfold Ask.openaiCall
  split_ifs with hk
  · rfl
  · dsimp only
    split <;> rfl

theorem Ask.perModel_model (env : Ask.Env) (q m : String) :
    (Ask.perModel env q m).1.model = m := by
  unfold Ask.perModel
  split_ifs with h1 h2
  · rw [Ask.hfCall_model, h1]
  · rw [Ask.openaiCall_model, h2]
  · rfl

theorem Chat.taskOf_model (env : Chat.Env) (q m : String) :
    (Chat.taskOf env q m).1.model = m := by
  unfold Chat.taskOf
  split_ifs with h1 h2
  · split <;> simp_all
  · split <;> simp_all
  · rfl

/-- Claim C3: a POST whose body has no usable query — the `query` field
and the `prompt`/`message` aliases all missing, or the resolved value not
a string — gets HTTP 400 with exactly the body
(error: Body must be JSON with a "query" string), and no backend call is
performed, in both the current handler and the `part_000` iteration. -/
theorem missing_query_http_400 (envA : Ask.Env) (envC : Chat.Env)
    (now : String) (fault : Option String) (b : Body)
    (h : (b.query = .und ∧ b.prompt = .und ∧ b.message = .und) ∨
         (∀ s : String, resolveQuery b ≠ .str s)) :
    Ask.handler envA now fault ⟨"POST", some b⟩ =
      (.ok ⟨400, .err "Body must be JSON with a \"query\" string"⟩, []) ∧
    Chat.handler envC now fault ⟨"POST", some b⟩ =
      (.ok ⟨400, .err "Body must be JSON with a \"query\" string"⟩, []) := by
  have hcond : ((resolveQuery b).truthy && (resolveQuery b).isStr) = false := by
    rcases h with ⟨h1, h2, h3⟩ | h
    · have hr : resolveQuery b = .nul := by
        simp [resolveQuery, h1, h2, h3, JsVal.truthy]
      simp [hr, JsVal.truthy]
    · cases hr : resolveQuery b with
      | str s => exact absurd hr (h s)
      | _ => simp [JsVal.truthy, JsVal.isStr]
  constructor
  · rw [ask_handler_post, if_pos (by simp [hcond])]
  · rw [chat_handler_post, if_pos (by simp [hcond])]

/-- Witness for C3 at the empty body: all three fields are absent and both
handlers answer 400 with the exact error body and no network operation. -/
theorem missing_query_http_400_witness :
    (emptyBody.query = .und ∧ emptyBody.prompt = .und ∧ emptyBody.message = .und) ∧
    Ask.handler cAskEnv "T" none ⟨"POST", some emptyBody⟩ =
      (.ok ⟨400, .err "Body must be JSON with a \"query\" string"⟩, []) ∧
    Chat.handler cChatEnv "T" none ⟨"POST", some emptyBody⟩ =
      (.ok ⟨400, .err "Body must be JSON with a \"query\" string"⟩, []) :=
  ⟨⟨rfl, rfl, rfl⟩,
   missing_query_http_400 cAskEnv cChatEnv "T" none emptyBody
     (Or.inl ⟨rfl, rfl, rfl⟩)⟩

/-- Claim C5 (amended): every GET request to the current handler
(`api/ask.js`) and to the `part_000` iteration returns HTTP 200 with the
static health payload and performs no backend call; the earliest
iteration (`part_001`, first half) has no GET branch and answers GET with
HTTP 405 (see the counterexample). -/
theorem get_health_ok (envA : Ask.Env) (envC : Chat.Env) (now : String)
    (fault : Option String) (req : Req) (h : req.method = "GET") :
    Ask.handler envA now fault req =
      (.ok ⟨200, .health "ok" "POST JSON \x7bquery:\"...\"\x7d"⟩, []) ∧
    Chat.handler envC now fault req =
      (.ok ⟨200, .health "ok"
        "POST /api/ask with JSON \x7bquery: \"...\", models: [\"hf\"] \x7d"⟩, []) := by
  obtain ⟨m, body⟩ := req
  cases h
  exact ⟨rfl, rfl⟩

/-- Witness for C5 at a concrete GET request. -/
theorem get_health_ok_witness :
    (Req.mk "GET" none).method = "GET" ∧
    Ask.handler cAskEnv "T" none ⟨"GET", none⟩ =
      (.ok ⟨200, .health "ok" "POST JSON \x7bquery:\"...\"\x7d"⟩, []) ∧
    Chat.handler cChatEnv "T" none ⟨"GET", none⟩ =
      (.ok ⟨200, .health "ok"
        "POST /api/ask with JSON \x7bquery: \"...\", models: [\"hf\"] \x7d"⟩, []) :=
  ⟨rfl,
   (get_health_ok cAskEnv cChatEnv "T" none ⟨"GET", none⟩ rfl).1,
   (get_health_ok cAskEnv cChatEnv "T" none ⟨"GET", none⟩ rfl).2⟩

/-- Counterexample to C5 as stated: the earliest iteration's handler has
no GET branch, so a GET request gets HTTP 405 with the
method-not-allowed body instead of the claimed 200 health payload. -/
theorem get_405_earliest_iteration :
    Gem.handler cGemEnv "T" ⟨"GET", none⟩ =
      (.ok ⟨405, .err "Method not allowed, use POST"⟩, []) ∧
    (405 : Nat) ≠ 200 :=
  ⟨rfl, by decide⟩

/-- Counterexample to C4 as stated: in `(query: 0, prompt: "hello")` the
`query` field is present with a non-string value, yet the request is not
rejected — the falsy `0` falls through to the `prompt` alias and the
handler answers 200 using "hello". -/
theorem query_alias_falsy_fallthrough :
    cBody4.query.isPresent = true ∧ cBody4.query.isStr = false ∧
    Ask.handler cAskEnv "T" none ⟨"POST", some cBody4⟩ =
      (.ok ⟨200, .envelope "hello" [cHfFailResult] "T"⟩, [.gradio]) :=
  ⟨rfl, rfl, rfl⟩

/-- Claim C4 (amended): the handlers resolve the query by JavaScript
truthiness, not presence — a falsy field (`0`, `false`, `null`, `""`) is
skipped like an absent one.  If `query` holds a truthy non-string value
the request is rejected with 400 and later aliases are not consulted; if
`query` is falsy and `prompt` holds a non-empty string, the request is
answered using `prompt`. -/
theorem query_alias_truthiness (envA : Ask.Env) (envC : Chat.Env)
    (now : String) (fault : Option String) (b : Body) (s : String) :
    ((b.query.truthy = true ∧ b.query.isStr = false) →
      Ask.handler envA now fault ⟨"POST", some b⟩ =
        (.ok ⟨400, .err "Body must be JSON with a \"query\" string"⟩, []) ∧
      Chat.handler envC now fault ⟨"POST", some b⟩ =
        (.ok ⟨400, .err "Body must be JSON with a \"query\" string"⟩, [])) ∧
    ((b.query.truthy = false ∧ b.prompt = .str s ∧ s ≠ "") →
      resolveQuery b = .str s ∧
      (Ask.handler envA now none ⟨"POST", some b⟩).1 =
        .ok ⟨200, .envelope s
          ((resolveModels b.models).map (fun m => (Ask.perModel envA s m).1)) now⟩) := by
  constructor
  · rintro ⟨h1, h2⟩
    have hr : resolveQuery b = b.query := by simp [resolveQuery, h1]
    have hcond : ((resolveQuery b).truthy && (resolveQuery b).isStr) = false := by
      simp [hr, h2]
    exact ⟨by rw [ask_handler_post, if_pos (by simp [hcond])],
           by rw [chat_handler_post, if_pos (by simp [hcond])]⟩
  · rintro ⟨h1, h2, h3⟩
    have hr : resolveQuery b = .str s := by
      unfold resolveQuery
      simp only [h1, h2]
      simp [JsVal.truthy, h3]
    exact ⟨hr, by rw [ask_handler_valid envA now hr]⟩

/-- Witness for C4 (amended), first branch: a truthy non-string `query`
(an array) with a string `prompt` is rejected with 400 — the alias is not
consulted. -/
theorem query_alias_truthiness_witness :
    (cBody4b.query.truthy = true ∧ cBody4b.query.isStr = false) ∧
    Ask.handler cAskEnv "T" none ⟨"POST", some cBody4b⟩ =
      (.ok ⟨400, .err "Body must be JSON with a \"query\" string"⟩, []) ∧
    Chat.handler cChatEnv "T" none ⟨"POST", some cBody4b⟩ =
      (.ok ⟨400, .err "Body must be JSON with a \"query\" string"⟩, []) :=
  ⟨⟨rfl, rfl⟩,
   (query_alias_truthiness cAskEnv cChatEnv "T" none cBody4b "x").1 ⟨rfl, rfl⟩⟩

/-- Counterexample to C10 as stated: in `(query: "", prompt: "hello")` the
resolved query per the spec's first-present rule is the empty string, yet
the handler does not return 400 — the empty string is conflated with
absence, the resolution falls through to `prompt`, the handler answers
200 using "hello" and a backend call is performed. -/
theorem empty_query_alias_fallthrough :
    specResolveQuery cBody10 = some (.str "") ∧
    (Ask.handler cAskEnv "T" none ⟨"POST", some cBody10⟩).1 =
      .ok ⟨200, .envelope "hello" [cHfFailResult] "T"⟩ ∧
    (Ask.handler cAskEnv "T" none ⟨"POST", some cBody10⟩).2 = [.gradio] :=
  ⟨rfl, rfl, rfl⟩

/-- Claim C10 (amended): when the spec-resolved query is the empty string
and no later alias is truthy (in particular when `query: ""` is the only
provided field), the handler returns HTTP 400 and invokes no backend: the
truthiness presence check conflates the empty string with absence.  (An
empty `query` followed by a truthy alias instead falls through to the
alias — see the counterexample.) -/
theorem falsy_query_http_400 (envA : Ask.Env) (envC : Chat.Env)
    (now : String) (fault : Option String) (b : Body)
    (h0 : specResolveQuery b = some (.str ""))
    (h1 : b.query.truthy = false) (h2 : b.prompt.truthy = false)
    (h3 : b.message.truthy = false) :
    Ask.handler envA now fault ⟨"POST", some b⟩ =
      (.ok ⟨400, .err "Body must be JSON with a \"query\" string"⟩, []) ∧
    Chat.handler envC now fault ⟨"POST", some b⟩ =
      (.ok ⟨400, .err "Body must be JSON with a \"query\" string"⟩, []) := by
  have hr : resolveQuery b = .nul := by simp [resolveQuery, h1, h2, h3]
  have hcond : ((resolveQuery b).truthy && (resolveQuery b).isStr) = false := by
    simp [hr, JsVal.truthy]
  exact ⟨by rw [ask_handler_post, if_pos (by simp [hcond])],
         by rw [chat_handler_post, if_pos (by simp [hcond])]⟩

/-- Witness for C10 (amended) at the body whose only field is `query: ""`. -/
theorem falsy_query_http_400_witness :
    specResolveQuery cBody10w = some (.str "") ∧
    Ask.handler cAskEnv "T" none ⟨"POST", some cBody10w⟩ =
      (.ok ⟨400, .err "Body must be JSON with a \"query\" string"⟩, []) ∧
    Chat.handler cChatEnv "T" none ⟨"POST", some cBody10w⟩ =
      (.ok ⟨400, .err "Body must be JSON with a \"query\" string"⟩, []) :=
  ⟨rfl,
   (falsy_query_http_400 cAskEnv cChatEnv "T" none cBody10w rfl rfl rfl rfl).1,
   (falsy_query_http_400 cAskEnv cChatEnv "T" none cBody10w rfl rfl rfl rfl).2⟩

/-- Claim C1: for every POST with a valid string query and a non-empty
`models` list, both the current handler and the `part_000` iteration
answer HTTP 200 with exactly one `BackendResult` per requested entry, in
the order of the `models` list (mapping each result to its `model` field
gives back the input list).  The environment — hence every possible
backend outcome and completion order — is universally quantified. -/
theorem ask_chat_results_match_models (envA : Ask.Env) (envC : Chat.Env)
    (now : String) (b : Body) (q : String) (ms : List String)
    (hq : resolveQuery b = .str q) (hms : b.models = some ms) (hne : ms ≠ []) :
    (Ask.handler envA now none ⟨"POST", some b⟩).1 =
      .ok ⟨200, .envelope q (ms.map (fun m => (Ask.perModel envA q m).1)) now⟩ ∧
    (ms.map (fun m => (Ask.perModel envA q m).1)).length = ms.length ∧
    (ms.map (fun m => (Ask.perModel envA q m).1)).map BackendResult.model = ms ∧
    (Chat.handler envC now none ⟨"POST", some b⟩).1 =
      .ok ⟨200, .envelope q (ms.map (fun m => (Chat.taskOf envC q m).1)) now⟩ ∧
    (ms.map (fun m => (Chat.taskOf envC q m).1)).length = ms.length ∧
    (ms.map (fun m => (Chat.taskOf envC q m).1)).map BackendResult.model = ms := by
  have hrm : resolveModels b.models = ms := by
    rw [hms]
    cases ms with
    | nil => exact absurd rfl hne
    | cons m rest => rfl
  refine ⟨?_, by simp, ?_, ?_, by simp, ?_⟩
  · rw [ask_handler_valid envA now hq, hrm]
  · simp [List.map_map, Function.comp_def, Ask.perModel_model]
  · rw [chat_handler_valid envC now hq, hrm]
  · simp [List.map_map, Function.comp_def, Chat.taskOf_model]

/-- Witness for C1 at `(query: "hi", models: ["hf", "zz"])`. -/
theorem ask_chat_results_match_models_witness :
    resolveQuery cBody1 = .str "hi" ∧
    cBody1.models = some ["hf", "zz"] ∧ (["hf", "zz"] : List String) ≠ [] ∧
    (Ask.handler cAskEnv "T" none ⟨"POST", some cBody1⟩).1 =
      .ok ⟨200, .envelope "hi"
        ((["hf", "zz"] : List String).map (fun m => (Ask.perModel cAskEnv "hi" m).1)) "T"⟩ ∧
    ((["hf", "zz"] : List String).map
      (fun m => (Ask.perModel cAskEnv "hi" m).1)).map BackendResult.model = ["hf", "zz"] ∧
    (Chat.handler cChatEnv "T" none ⟨"POST", some cBody1⟩).1 =
      .ok ⟨200, .envelope "hi"
        ((["hf", "zz"] : List String).map (fun m => (Chat.taskOf cChatEnv "hi" m).1)) "T"⟩ := by
  have h := ask_chat_results_match_models cAskEnv cChatEnv "T" cBody1 "hi"
    ["hf", "zz"] rfl rfl (by simp)
  exact ⟨rfl, rfl, by simp, h.1, h.2.2.1, h.2.2.2.1⟩

/-- Claim C2: a requested identifier that is neither "hf" nor "openai"
yields the immediate result (model, ok:false, error:"unknown model") with
zero network operations, while the other requested models are still
processed (the response is still the full per-model map and the network
operations are exactly those of the recognized entries), in both the
current handler and the `part_000` iteration. -/
theorem unknown_model_immediate (envA : Ask.Env) (envC : Chat.Env)
    (now : String) (b : Body) (q : String) (ms : List String) (m : String)
    (i : Nat) (hq : resolveQuery b = .str q) (hms : b.models = some ms)
    (hne : ms ≠ []) (h1 : m ≠ "hf") (h2 : m ≠ "openai")
    (hi : ms.get? i = some m) :
    Ask.perModel envA q m = (⟨m, false, none, some "unknown model", none⟩, []) ∧
    Chat.taskOf envC q m = (⟨m, false, none, some "unknown model", none⟩, []) ∧
    (Ask.handler envA now none ⟨"POST", some b⟩).1 =
      .ok ⟨200, .envelope q (ms.map (fun x => (Ask.perModel envA q x).1)) now⟩ ∧
    (ms.map (fun x => (Ask.perModel envA q x).1)).get? i =
      some ⟨m, false, none, some "unknown model", none⟩ ∧
    (Ask.handler envA now none ⟨"POST", some b⟩).2 =
      ms.flatMap (fun x => (Ask.perModel envA q x).2) ∧
    (Chat.handler envC now none ⟨"POST", some b⟩).1 =
      .ok ⟨200, .envelope q (ms.map (fun x => (Chat.taskOf envC q x).1)) now⟩ := by
  have hrm : resolveModels b.models = ms := by
    rw [hms]
    cases ms with
    | nil => exact absurd rfl hne
    | cons x rest => rfl
  have hpm : Ask.perModel envA q m =
      (⟨m, false, none, some "unknown model", none⟩, []) := by
    unfold Ask.perModel
    rw [if_neg h1, if_neg h2]
  have hct : Chat.taskOf envC q m =
      (⟨m, false, none, some "unknown model", none⟩, []) := by
    unfold Chat.taskOf
    rw [if_neg h1, if_neg h2]
  refine ⟨hpm, hct, ?_, ?_, ?_, ?_⟩
  · rw [ask_handler_valid envA now hq, hrm]
  · rw [List.get?_map, hi]
    simp [hpm]
  · rw [ask_handler_valid envA now hq, hrm]
  · rw [chat_handler_valid envC now hq, hrm]

/-- Witness for C2 at `(query: "ok", models: ["zz", "openai"])` with the
unrecognized identifier "zz" at position 0. -/
theorem unknown_model_immediate_witness :
    resolveQuery cBody2 = .str "ok" ∧
    cBody2.models = some ["zz", "openai"] ∧
    ("zz" : String) ≠ "hf" ∧ ("zz" : String) ≠ "openai" ∧
    (["zz", "openai"] : List String).get? 0 = some "zz" ∧
    Ask.perModel cAskEnv "ok" "zz" =
      (⟨"zz", false, none, some "unknown model", none⟩, []) ∧
    Chat.taskOf cChatEnv "ok" "zz" =
      (⟨"zz", false, none, some "unknown model", none⟩, []) ∧
    ((["zz", "openai"] : List String).map
      (fun x => (Ask.perModel cAskEnv "ok" x).1)).get? 0 =
      some ⟨"zz", false, none, some "unknown model", none⟩ := by
  have h := unknown_model_immediate cAskEnv cChatEnv "T" cBody2 "ok"
    ["zz", "openai"] "zz" 0 rfl rfl (by simp) (by decide) (by decide) rfl
  exact ⟨rfl, rfl, by decide, by decide, rfl, h.1, h.2.1, h.2.2.2.1⟩

theorem gem_handler_post (env : Gem.Env) (now : String) (b : Body) :
    Gem.handler env now ⟨"POST", some b⟩ =
      (if ¬ (b.query.truthy && b.query.isStr) then
        (.ok ⟨400, .err "Body must be JSON with a \"query\" string"⟩, [])
      else
        let r := Gem.runTasks env b.query.asString (resolveModels b.models)
        (.ok ⟨200, .envelopeN b.query.asString (r.1.map Gem.normalizeR) now⟩, r.2)) := rfl

/-- Claim C6: the Gemini caller requires `GOOGLE_API_ENDPOINT`.  Absent,
`models:["gemini"]` yields the immediate configuration failure (the task
record has `ok:false` and the configuration message) with zero network
operations, and the handler still answers 200 with that single entry.
Configured, `callGemini` posts `(input: query)` to the endpoint and, on a
2xx reply, returns the response body verbatim with no normalization. -/
theorem gemini_caller_contract (envG : Gem.Env) (now q : String) (s : Nat)
    (d : JsVal) :
    (envG.GOOGLE_API_ENDPOINT = "" →
      Gem.callGemini envG q =
        (.error "GOOGLE_API_ENDPOINT not configured for Gemini", []) ∧
      Gem.taskOf envG q "gemini" =
        (⟨"gemini", false, none,
          some "GOOGLE_API_ENDPOINT not configured for Gemini"⟩, []) ∧
      (q ≠ "" →
        Gem.handler envG now ⟨"POST", some ⟨.str q, .und, .und, some ["gemini"]⟩⟩ =
          (.ok ⟨200, .envelopeN q
            [⟨"gemini", none,
              some "GOOGLE_API_ENDPOINT not configured for Gemini"⟩] now⟩, []))) ∧
    ((envG.GOOGLE_API_ENDPOINT ≠ "" ∧
      envG.wire envG.GOOGLE_API_ENDPOINT (.obj [("input", .str q)]) = .reply s d ∧
      200 ≤ s ∧ s < 300) →
      Gem.callGemini envG q =
        (.ok d, [.post envG.GOOGLE_API_ENDPOINT (.obj [("input", .str q)])])) := by
  constructor
  · intro he
    have hcg : Gem.callGemini envG q =
        (.error "GOOGLE_API_ENDPOINT not configured for Gemini", []) := by
      unfold Gem.callGemini
      rw [if_pos he]
    have htask : Gem.taskOf envG q "gemini" =
        (⟨"gemini", false, none,
          some "GOOGLE_API_ENDPOINT not configured for Gemini"⟩, []) := by
      unfold Gem.taskOf
      rw [if_neg (by decide), if_neg (by decide), if_pos rfl, hcg]
    refine ⟨hcg, htask, ?_⟩
    intro hq
    rw [gem_handler_post, if_neg (by simp [JsVal.truthy, JsVal.isStr, hq])]
    simp [Gem.runTasks, htask, Gem.normalizeR, JsVal.asString]
  · rintro ⟨he, hw, hlo, hhi⟩
    unfold Gem.callGemini
    rw [if_neg he]
    have hpost : axiosPost envG.wire envG.GOOGLE_API_ENDPOINT
        (.obj [("input", .str q)]) = .ok s d := by
      unfold axiosPost
      rw [hw]
      simp [hlo, hhi]
    dsimp only
    rw [hpost]

/-- Witness for C6: with no endpoint the caller fails immediately, the
handler still answers; with a configured endpoint answering 200 the raw
body comes back verbatim. -/
theorem gemini_caller_contract_witness :
    cGemEnv.GOOGLE_API_ENDPOINT = "" ∧
    Gem.callGemini cGemEnv "hey" =
      (.error "GOOGLE_API_ENDPOINT not configured for Gemini", []) ∧
    Gem.taskOf cGemEnv "hey" "gemini" =
      (⟨"gemini", false, none,
        some "GOOGLE_API_ENDPOINT not configured for Gemini"⟩, []) ∧
    Gem.handler cGemEnv "T" ⟨"POST", some ⟨.str "hey", .und, .und, some ["gemini"]⟩⟩ =
      (.ok ⟨200, .envelopeN "hey"
        [⟨"gemini", none,
          some "GOOGLE_API_ENDPOINT not configured for Gemini"⟩] "T"⟩, []) ∧
    Gem.callGemini cGemEnvOk "hey" =
      (.ok (.obj [("answer", .str "yo")]),
       [.post "http://g" (.obj [("input", .str "hey")])]) := by
  have h1 := (gemini_caller_contract cGemEnv "T" "hey" 200
    (.obj [("answer", .str "yo")])).1 rfl
  have h2 := (gemini_caller_contract cGemEnvOk "T" "hey" 200
    (.obj [("answer", .str "yo")])).2 ⟨by decide, rfl, by decide, by decide⟩
  exact ⟨rfl, h1.1, h1.2.1, h1.2.2 (by decide), h2⟩

theorem Ask.handler_ok_no_fault (env : Ask.Env) (now : String) (req : Req) :
    exOk (Ask.handler env now none req).1 = true := by
  obtain ⟨m, body⟩ := req
  unfold Ask.handler
  dsimp only
  split
  · rfl
  · split
    · rfl
    · split
      · rfl
      · rfl

theorem Chat.handler_ok (env : Chat.Env) (now : String) (fault : Option String)
    (req : Req) : exOk (Chat.handler env now fault req).1 = true := by
  obtain ⟨m, body⟩ := req
  unfold Chat.handler
  dsimp only
  split
  · rfl
  · split
    · rfl
    · split
      · rfl
      · cases fault <;> rfl

/-- Claim C8 (amended): every backend call catches its own error and turns
it into an `ok:false` result, so a single backend's failure never fails
the request — for every environment (hence every backend outcome) both
handlers answer normally when no unforeseen exception occurs, and the
`part_000` handler answers for every injected fault as well, surfacing it
as HTTP 500 with the error message.  The current `api/ask.js` handler has
no top-level catch, so an unforeseen exception escapes it (see the
counterexample). -/
theorem backend_failures_contained (envA : Ask.Env) (envC : Chat.Env)
    (now : String) (req : Req) (b : Body) (q e msg : String)
    (fault : Option String) (hq : resolveQuery b = .str q)
    (hg : envC.gradioResp q = .error msg) :
    exOk (Ask.handler envA now none req).1 = true ∧
    exOk (Chat.handler envC now fault req).1 = true ∧
    (Chat.handler envC now (some e) ⟨"POST", some b⟩).1 = .ok ⟨500, .err e⟩ ∧
    (Chat.taskOf envC q "hf").1 = ⟨"hf", false, none, some msg, none⟩ ∧
    (Ask.handler envA now none ⟨"POST", some b⟩).1 =
      .ok ⟨200, .envelope q
        ((resolveModels b.models).map (fun m => (Ask.perModel envA q m).1)) now⟩ ∧
    (Chat.handler envC now none ⟨"POST", some b⟩).1 =
      .ok ⟨200, .envelope q
        ((resolveModels b.models).map (fun m => (Chat.taskOf envC q m).1)) now⟩ := by
  refine ⟨Ask.handler_ok_no_fault envA now req, Chat.handler_ok envC now fault req,
    ?_, ?_, ?_, ?_⟩
  · rw [chat_handler_post, if_neg (by simp [resolveQuery_cond_true hq])]
  · unfold Chat.taskOf
    rw [if_pos rfl]
    simp [Chat.callHfChat, hg]
  · rw [ask_handler_valid envA now hq]
  · rw [chat_handler_valid envC now hq]

/-- Witness for C8 (amended) at concrete inputs: an arbitrary DELETE
request, a failing hf backend, and the injected fault "boom". -/
theorem backend_failures_contained_witness :
    resolveQuery cBody8 = .str "hi" ∧
    cChatEnv.gradioResp "hi" = .error "down" ∧
    exOk (Ask.handler cAskEnv "T" none ⟨"DELETE", none⟩).1 = true ∧
    (Chat.handler cChatEnv "T" (some "boom") ⟨"POST", some cBody8⟩).1 =
      .ok ⟨500, .err "boom"⟩ ∧
    (Chat.taskOf cChatEnv "hi" "hf").1 = ⟨"hf", false, none, some "down", none⟩ ∧
    (Ask.handler cAskEnv "T" none ⟨"POST", some cBody8⟩).1 =
      .ok ⟨200, .envelope "hi"
        ((resolveModels cBody8.models).map
          (fun m => (Ask.perModel cAskEnv "hi" m).1)) "T"⟩ := by
  have h := backend_failures_contained cAskEnv cChatEnv "T" ⟨"DELETE", none⟩
    cBody8 "hi" "boom" "down" (some "zz") rfl rfl
  exact ⟨rfl, rfl, h.1, h.2.2.1, h.2.2.2.1, h.2.2.2.2.1⟩

/-- Counterexample to C8 as stated: the same unforeseen exception "boom"
injected at the dispatch section escapes the `api/ask.js` handler (it has
no top-level catch), while the `part_000` handler catches it and surfaces
HTTP 500 — so the current handler does let an exception past its own
boundary. -/
theorem ask_handler_uncaught_fault :
    (Ask.handler cAskEnv "T" (some "boom") ⟨"POST", some cBody8⟩).1 =
      .error "boom" ∧
    (Chat.handler cChatEnv "T" (some "boom") ⟨"POST", some cBody8⟩).1 =
      .ok ⟨500, .err "boom"⟩ :=
  ⟨rfl, rfl⟩

theorem Chat.burst_pending (n : Nat) (cn att : Nat) :
    Chat.burst n ⟨none, some cn, att⟩ =
      (⟨none, some cn, att⟩, List.replicate n (.pending cn)) := by
  induction n with
  | zero => rfl
  | succ k ih => simp [Chat.burst, Chat.getClient, ih, List.replicate]

/-- Claim C9: concurrent initializations of the HF client are coalesced.
A caller arriving while a connection is pending receives the in-flight
promise and changes nothing; a burst of `n+1` simultaneous callers on a
fresh state starts exactly one connection establishment (the attempt
counter rises by one) and every other caller joins that same promise; and
after a successful settlement callers get the cached client. -/
theorem connection_coalescing (s : Chat.St) (p c : Nat) (n : Nat) :
    ((s.gradioClient = none ∧ s.connecting = some p) →
      Chat.getClient s = (s, .pending p)) ∧
    ((s.gradioClient = none ∧ s.connecting = none) →
      (Chat.burst (n + 1) s).1.attempts = s.attempts + 1 ∧
      (Chat.burst (n + 1) s).2 =
        .started s.attempts :: List.replicate n (.pending s.attempts)) ∧
    Chat.getClient (Chat.settleOk s c) = (Chat.settleOk s c, .cached c) := by
  obtain ⟨gc, cn, att⟩ := s
  refine ⟨?_, ?_, rfl⟩
  · rintro ⟨h1, h2⟩
    simp only at h1 h2
    subst h1
    subst h2
    rfl
  · rintro ⟨h1, h2⟩
    simp only at h1 h2
    subst h1
    subst h2
    simp [Chat.burst, Chat.getClient, Chat.burst_pending]

/-- Witness for C9: two simultaneous callers on the fresh state trigger a
single connection establishment; the second shares the first's promise. -/
theorem connection_coalescing_witness :
    (Chat.St.mk none none 0).gradioClient = none ∧
    (Chat.St.mk none none 0).connecting = none ∧
    (Chat.burst 2 ⟨none, none, 0⟩).1.attempts = 0 + 1 ∧
    (Chat.burst 2 ⟨none, none, 0⟩).2 = [.started 0, .pending 0] := by
  have h := (connection_coalescing ⟨none, none, 0⟩ 5 7 1).2.1 ⟨rfl, rfl⟩
  refine ⟨rfl, rfl, h.1, ?_⟩
  rw [h.2]
  rfl

theorem Ask.probeGo_all_fail (post : String → JsVal → PostResult)
    (combos : List (String × JsVal)) :
    ∀ acc : List Attempt, (∀ c ∈ combos, Ask.postOk post c = false) →
    Ask.probeGo post acc combos =
      (.error ⟨"no_http_hf_endpoint",
         some (acc ++ combos.map (Ask.attemptOf post))⟩,
       combos.map (fun c => NetOp.post c.1 c.2)) := by
  induction combos with
  | nil =>
    intro acc h
    simp [Ask.probeGo]
  | cons c rest ih =>
    intro acc h
    obtain ⟨u, p⟩ := c
    have hc : Ask.postOk post (u, p) = false := h _ (List.mem_cons_self _ _)
    have hrest : ∀ x ∈ rest, Ask.postOk post x = false :=
      fun x hx => h x (List.mem_cons_of_mem _ hx)
    cases hp : post u p with
    | ok s d => simp [Ask.postOk, hp] at hc
    | errResp s d m =>
      simp only [Ask.probeGo, hp]
      rw [ih _ hrest]
      simp [Ask.attemptOf, hp]
    | errNoResp m =>
      simp only [Ask.probeGo, hp]
      rw [ih _ hrest]
      simp [Ask.attemptOf, hp]

theorem Ask.probeGo_first_ok (post : String → JsVal → PostResult)
    (pre : List (String × JsVal)) :
    ∀ (acc : List Attempt) (c : String × JsVal) (rest : List (String × JsVal)),
    (∀ x ∈ pre, Ask.postOk post x = false) →
    ∀ (s : Nat) (d : JsVal), post c.1 c.2 = .ok s d →
    Ask.probeGo post acc (pre ++ c :: rest) =
      (.ok (Ask.normalizeHttp d,
         acc ++ pre.map (Ask.attemptOf post) ++ [⟨true, c.1, some s, none⟩]),
       pre.map (fun x => NetOp.post x.1 x.2) ++ [NetOp.post c.1 c.2]) := by
  induction pre with
  | nil =>
    intro acc c rest h s d hp
    obtain ⟨u, pl⟩ := c
    simp only [List.nil_append]
    simp only [Ask.probeGo, hp]
    simp
  | cons x xs ih =>
    intro acc c rest h s d hp
    obtain ⟨u, pl⟩ := x
    have hx : Ask.postOk post (u, pl) = false := h _ (List.mem_cons_self _ _)
    have hxs : ∀ y ∈ xs, Ask.postOk post y = false :=
      fun y hy => h y (List.mem_cons_of_mem _ hy)
    cases hq : post u pl with
    | ok s2 d2 => simp [Ask.postOk, hq] at hx
    | errResp s2 d2 m =>
      simp only [List.cons_append, Ask.probeGo, hq, List.append_eq]
      rw [ih _ _ _ hxs s d hp]
      simp [Ask.attemptOf, hq]
    | errNoResp m =>
      simp only [List.cons_append, Ask.probeGo, hq, List.append_eq]
      rw [ih _ _ _ hxs s d hp]
      simp [Ask.attemptOf, hq]

/-- Claim C7 (amended): `callHfHttpFallback` iterates the fixed
endpoint/payload cross-product in order and short-circuits on the first
combination whose POST resolves (axios resolves exactly on HTTP 2xx),
returning the normalized string extracted from the body — first array
element of `data`, then a string `data` field, then a plain string body
returned as-is, then JSON-stringify fallback (`Ask.normalizeHttp`) — with
an attempt log holding one failure entry (URL, status, error body) per
earlier combination plus the success entry; when every combination fails
it throws `no_http_hf_endpoint` carrying one attempt entry per attempted
combination.  The performed POSTs match the attempted combinations. -/
theorem probe_cross_product_contract (env : Ask.Env) (q : String)
    (h : env.HF_SPACE_URL ≠ "") :
    Ask.callHfHttpFallback env q =
      (match (Ask.hfCombos (safeBase env.HF_SPACE_URL) q).dropWhile
          (fun c => ! Ask.postOk (axiosPost env.wire) c) with
       | [] =>
         (.error ⟨"no_http_hf_endpoint",
            some ((Ask.hfCombos (safeBase env.HF_SPACE_URL) q).map
              (Ask.attemptOf (axiosPost env.wire)))⟩,
          (Ask.hfCombos (safeBase env.HF_SPACE_URL) q).map
            (fun c => NetOp.post c.1 c.2))
       | c :: _ =>
         (.ok (Ask.normalizeHttp (Ask.postData (axiosPost env.wire) c),
            ((Ask.hfCombos (safeBase env.HF_SPACE_URL) q).takeWhile
              (fun x => ! Ask.postOk (axiosPost env.wire) x)).map
              (Ask.attemptOf (axiosPost env.wire)) ++
            [Ask.attemptOf (axiosPost env.wire) c]),
          ((Ask.hfCombos (safeBase env.HF_SPACE_URL) q).takeWhile
            (fun x => ! Ask.postOk (axiosPost env.wire) x)).map
            (fun x => NetOp.post x.1 x.2) ++ [NetOp.post c.1 c.2])) ∧
    ((Ask.hfCombos (safeBase env.HF_SPACE_URL) q).map
      (Ask.attemptOf (axiosPost env.wire))).length =
      (Ask.hfCombos (safeBase env.HF_SPACE_URL) q).length := by
  refine ⟨?_, by simp⟩
  cases hd : (Ask.hfCombos (safeBase env.HF_SPACE_URL) q).dropWhile
      (fun c => ! Ask.postOk (axiosPost env.wire) c) with
  | nil =>
    have hall : ∀ c ∈ Ask.hfCombos (safeBase env.HF_SPACE_URL) q,
        Ask.postOk (axiosPost env.wire) c = false := by
      intro c hc
      have := List.dropWhile_eq_nil_iff.mp hd c hc
      simpa using this
    unfold Ask.callHfHttpFallback
    rw [if_neg h, Ask.probeGo_all_fail _ _ _ hall]
    simp
  | cons c rest2 =>
    have hsplit : (Ask.hfCombos (safeBase env.HF_SPACE_URL) q).takeWhile
        (fun x => ! Ask.postOk (axiosPost env.wire) x) ++ c :: rest2 =
        Ask.hfCombos (safeBase env.HF_SPACE_URL) q := by
      rw [← hd, List.takeWhile_append_dropWhile]
    have hpre : ∀ x ∈ (Ask.hfCombos (safeBase env.HF_SPACE_URL) q).takeWhile
        (fun x => ! Ask.postOk (axiosPost env.wire) x),
        Ask.postOk (axiosPost env.wire) x = false := by
      intro x hx
      have := List.mem_takeWhile_imp hx
      simpa using this
    have hfind : (Ask.hfCombos (safeBase env.HF_SPACE_URL) q).find?
        (fun x => Ask.postOk (axiosPost env.wire) x) = some c := by
      rw [List.find?_eq_head?_dropWhile_not, hd]
      rfl
    have hc : Ask.postOk (axiosPost env.wire) c = true := List.find?_some hfind
    obtain ⟨s, d, hp⟩ : ∃ s d, axiosPost env.wire c.1 c.2 = .ok s d := by
      revert hc
      unfold Ask.postOk
      cases hps : axiosPost env.wire c.1 c.2 with
      | ok s2 d2 => exact fun _ => ⟨s2, d2, rfl⟩
      | errResp s2 d2 m => intro hc; simp at hc
      | errNoResp m => intro hc; simp at hc
    have hrun := Ask.probeGo_first_ok (axiosPost env.wire)
      ((Ask.hfCombos (safeBase env.HF_SPACE_URL) q).takeWhile
        (fun x => ! Ask.postOk (axiosPost env.wire) x)) [] c rest2 hpre s d hp
    rw [hsplit] at hrun
    unfold Ask.callHfHttpFallback
    rw [if_neg h, hrun]
    simp [Ask.attemptOf, Ask.postData, hp]

/-- Witness for C7 (amended) with every combination failing: the thrown
error aggregates one attempt per combination — all 18 of them. -/
theorem probe_cross_product_contract_witness :
    cAskEnvProbeFail.HF_SPACE_URL ≠ "" ∧
    (Ask.callHfHttpFallback cAskEnvProbeFail "q").1 =
      .error ⟨"no_http_hf_endpoint",
        some ((Ask.hfCombos "http://x" "q").map
          (Ask.attemptOf (axiosPost cAskEnvProbeFail.wire)))⟩ ∧
    ((Ask.hfCombos "http://x" "q").map
      (Ask.attemptOf (axiosPost cAskEnvProbeFail.wire))).length = 18 := by
  have h := probe_cross_product_contract cAskEnvProbeFail "q" (by decide)
  refine ⟨by decide, ?_, by rfl⟩
  rw [h.1]
  rfl

/-- Counterexample to C7 as stated: a 2xx response whose body is the plain
JSON string "hi" is returned as-is by the code, while the claim's
extraction chain (array element, string `data` field, JSON-stringify
fallback — with no plain-string case) would produce the quoted
serialization instead. -/
theorem probe_plain_string_body :
    (Ask.callHfHttpFallback cAskEnvProbeOk "q").1 =
      .ok (.str "hi", [⟨true, "http://x/run/predict", some 200, none⟩]) ∧
    specNormalizeHttp (.str "hi") = .str "\"hi\"" ∧
    ("hi" : String) ≠ "\"hi\"" :=
  ⟨rfl, rfl, by decide⟩
